import Mathlib

/-!
Verification development for the typed-RPC example in `src/main.py`.

The program wraps a handler function in a request pipeline: decode the raw
request body (JSON text) into a declared input type, derive an authorization
context from the request and the decoded input, check the context against the
type the handler declared, invoke the handler, and encode its output.

Modelling conventions:
* JSON text is parsed by the external msgspec library in the source; here a
  small JSON front end (`parseJson`) stands in for it, producing a `Json`
  value from the body string.  Numbers keep the syntactic integer/float
  distinction the typed decoder relies on.
* Python floats are modelled as rationals (`ℚ`).  The only float the program
  produces is `bar / 2.0`; for an even integer `bar` this division is exact
  both rationally and in IEEE double semantics.
* Python exceptions are modelled as `Except` errors.  All three authorization
  failures raise `Exception("Unauthorized.")` and are modelled as
  `Except.error "Unauthorized."`; the pipeline wraps the failure kinds in
  `RpcError` (decode failure, authorization failure, and the failing
  `assert isinstance` context check, the spec's `InternalContractError`).
* The `rpc` decorator is generic in the wrapped function's declared types; the
  declared context type check (`assert isinstance(ctx, ...)`) is modelled by a
  boolean predicate `ctxCheck` on the produced context.
* The pipeline is instrumented (`RpcTrace`) with whether the authorization
  step ran and whether the wrapped handler was invoked, the invocation spy
  the spec's testable properties call for.
-/

/-- JSON values, as produced by the JSON library after parsing a body string.
Numbers keep the syntactic distinction the typed decoder relies on:
`int` for numerals written without a fractional part or exponent, `float`
(modelled as a rational) otherwise. -/
inductive Json where
  | null : Json
  | bool (b : Bool) : Json
  | int (n : Int) : Json
  | float (q : ℚ) : Json
  | str (s : String) : Json
  | arr (elems : List Json) : Json
  | obj (fields : List (String × Json)) : Json
deriving Repr

/-- Skip JSON whitespace characters. -/
def skipWs : List Char → List Char
  | [] => []
  | c :: rest =>
    if c = ' ' ∨ c = '\t' ∨ c = '\n' ∨ c = '\r' then skipWs rest
    else c :: rest

/-- Parse the remainder of a JSON string literal, after the opening quote,
accumulating characters in `acc`; returns the string and the remaining
input.  Common escape sequences only. -/
def parseStrAux : List Char → List Char → Option (String × List Char)
  | acc, '\\' :: e :: rest =>
    let unescaped : Option Char :=
      if e = '"' then some '"'
      else if e = '\\' then some '\\'
      else if e = '/' then some '/'
      else if e = 'n' then some '\n'
      else if e = 't' then some '\t'
      else if e = 'r' then some '\r'
      else none
    match unescaped with
    | some c => parseStrAux (c :: acc) rest
    | none => none
  | acc, '"' :: rest => some (String.mk acc.reverse, rest)
  | acc, c :: rest => parseStrAux (c :: acc) rest
  | _, [] => none

/-- Take the leading run of decimal digits. -/
def takeDigits : List Char → List Char × List Char
  | [] => ([], [])
  | c :: rest =>
    if c.isDigit then
      let (ds, r) := takeDigits rest
      (c :: ds, r)
    else ([], c :: rest)

/-- Value of a list of decimal digits. -/
def digitsToNat (ds : List Char) : Nat :=
  ds.foldl (fun n c => 10 * n + (c.toNat - 48)) 0

/-- Value of the fractional digits of a number literal. -/
def fracToRat (fs : List Char) : ℚ :=
  (digitsToNat fs : ℚ) / ((10 : ℚ) ^ fs.length)

/-- Parse a JSON number.  Yields `Json.int` when the literal has no
fractional part and no exponent, `Json.float` otherwise. -/
def parseNumber (s : List Char) : Option (Json × List Char) :=
  let (neg, s1) :=
    match s with
    | '-' :: rest => (true, rest)
    | _ => (false, s)
  let (ds, s2) := takeDigits s1
  if ds.isEmpty then none
  else
    let ip : Nat := digitsToNat ds
    let (fracDigits, s3) :=
      match s2 with
      | '.' :: rest =>
        let (fs, r) := takeDigits rest
        if fs.isEmpty then (([] : List Char), s2) else (fs, r)
      | _ => (([] : List Char), s2)
    let (hasExp, expNeg, expDigits, s4) :=
      match s3 with
      | 'e' :: rest | 'E' :: rest =>
        match rest with
        | '+' :: r2 =>
          let (es, r3) := takeDigits r2
          if es.isEmpty then (false, false, ([] : List Char), s3)
          else (true, false, es, r3)
        | '-' :: r2 =>
          let (es, r3) := takeDigits r2
          if es.isEmpty then (false, false, ([] : List Char), s3)
          else (true, true, es, r3)
        | _ =>
          let (es, r3) := takeDigits rest
          if es.isEmpty then (false, false, ([] : List Char), s3)
          else (true, false, es, r3)
      | _ => (false, false, ([] : List Char), s3)
    if fracDigits.isEmpty ∧ hasExp = false then
      some (Json.int (if neg then -(ip : Int) else (ip : Int)), s4)
    else
      let base : ℚ := (ip : ℚ) + fracToRat fracDigits
      let scaled : ℚ :=
        if hasExp then
          if expNeg then base / ((10 : ℚ) ^ digitsToNat expDigits)
          else base * ((10 : ℚ) ^ digitsToNat expDigits)
        else base
      some (Json.float (if neg then -scaled else scaled), s4)

mutual

/-- Parse one JSON value.  The fuel argument bounds recursion depth;
`parseJson` supplies more fuel than any input can consume. -/
def parseValue : Nat → List Char → Option (Json × List Char)
  | 0, _ => none
  | fuel + 1, s =>
    match skipWs s with
    | '"' :: rest =>
      match parseStrAux [] rest with
      | some (lit, r) => some (Json.str lit, r)
      | none => none
    | '\x7b' :: rest =>
      match skipWs rest with
      | '\x7d' :: r2 => some (Json.obj [], r2)
      | r2 =>
        match parseMembers fuel r2 with
        | some (fields, r3) =>
          match skipWs r3 with
          | '\x7d' :: r4 => some (Json.obj fields, r4)
          | _ => none
        | none => none
    | '[' :: rest =>
      match skipWs rest with
      | ']' :: r2 => some (Json.arr [], r2)
      | r2 =>
        match parseItems fuel r2 with
        | some (elems, r3) =>
          match skipWs r3 with
          | ']' :: r4 => some (Json.arr elems, r4)
          | _ => none
        | none => none
    | 't' :: 'r' :: 'u' :: 'e' :: rest => some (Json.bool true, rest)
    | 'f' :: 'a' :: 'l' :: 's' :: 'e' :: rest => some (Json.bool false, rest)
    | 'n' :: 'u' :: 'l' :: 'l' :: rest => some (Json.null, rest)
    | s1 => parseNumber s1

/-- Parse one or more comma-separated object members. -/
def parseMembers : Nat → List Char → Option (List (String × Json) × List Char)
  | 0, _ => none
  | fuel + 1, s =>
    match skipWs s with
    | '"' :: rest =>
      match parseStrAux [] rest with
      | some (key, r2) =>
        match skipWs r2 with
        | ':' :: r3 =>
          match parseValue fuel r3 with
          | some (v, r4) =>
            match skipWs r4 with
            | ',' :: r5 =>
              match parseMembers fuel r5 with
              | some (fields, r6) => some ((key, v) :: fields, r6)
              | none => none
            | r5 => some ([(key, v)], r5)
          | none => none
        | _ => none
      | none => none
    | _ => none

/-- Parse one or more comma-separated array items. -/
def parseItems : Nat → List Char → Option (List Json × List Char)
  | 0, _ => none
  | fuel + 1, s =>
    match parseValue fuel s with
    | some (v, r) =>
      match skipWs r with
      | ',' :: r2 =>
        match parseItems fuel r2 with
        | some (vs, r3) => some (v :: vs, r3)
        | none => none
      | r2 => some ([v], r2)
    | none => none

end

/-- Parse a complete JSON document: one value surrounded only by whitespace.
This is the JSON front end of the external msgspec library. -/
def parseJson (s : String) : Option Json :=
  match parseValue (2 * s.toList.length + 2) s.toList with
  | some (v, rest) => if (skipWs rest).isEmpty then some v else none
  | none => none

/-- Stand-in for the web framework's request object. -/
structure FakeRequest where
  url : String
  body : String
deriving Repr, DecidableEq

/-- The data needed to define an RPC.  Declared in the source for
introspection purposes; the commented-out construction in the decorator is
the only mention, so the pipeline never exercises it. -/
structure RPC where
  input_schema : Json
  output_schema : Json
  name : String
  description : String

/-- The fixed user table, mapping each username to its record; the record's
only field is the permission list. -/
def USERS_DICT : List (String × List String) :=
  [("bob", ["read"]), ("alice", ["read", "write"])]

/-- Python dictionary access on the user table: `username in USERS_DICT`
succeeds exactly when this returns `some`, and the payload is
`USERS_DICT[username]["permissions"]`. -/
def usersLookup (username : String) : Option (List String) :=
  (USERS_DICT.find? (fun p => p.1 == username)).map (·.2)

/-- Python `str.split(sep)` on character lists: splitting the empty string
yields one empty segment, and adjacent separators yield empty segments. -/
def splitChars (sep : Char) : List Char → List (List Char)
  | [] => [[]]
  | c :: rest =>
    match splitChars sep rest with
    | [] => [[c]]
    | seg :: segs =>
      if c = sep then [] :: seg :: segs
      else (c :: seg) :: segs

/-- Python `str.split(sep)`. -/
def pySplit (sep : Char) (s : String) : List String :=
  (splitChars sep s.toList).map (fun cs => String.mk cs)

/-- The identity resolution `request.url.split("/")[-1]`: the final
slash-delimited segment of the URL.  `split` never returns an empty list, so
the `[-1]` index is total; the default is never used. -/
def usernameOf (url : String) : String :=
  (pySplit '/' url).getLastD ""

/-- Authorization context: its existence proves authorization succeeded, and
it carries the resolved user identity. -/
structure GenericAuthContext where
  user : String
deriving Repr, DecidableEq

/-- The generic authorization strategy: resolve the identity from the URL,
look it up in the user table, check that the required permissions are all
held, and check the data predicate (the `bar` field must be even).  Every
failing check raises the same generic `Exception("Unauthorized.")`. -/
def GenericAuthContext.authorize (request : FakeRequest)
    (has_permissions : List String) (bar : Int) :
    Except String GenericAuthContext :=
  let username := usernameOf request.url
  match usersLookup username with
  | none => .error "Unauthorized."
  | some user =>
    if ¬ (has_permissions.all fun perm => user.contains perm) then
      .error "Unauthorized."
    else if bar % 2 ≠ 0 then
      .error "Unauthorized."
    else
      .ok ⟨username⟩

/-- Input schema: the declared shape of the request body. -/
structure ExampleInput where
  foo : String
  bar : Int
deriving Repr, DecidableEq

/-- The input type's authorize method: maps the input data to the parameters
of the generic strategy — required permissions `["read", "write"]` and the
extracted `bar` field. -/
def ExampleInput.authorize (self : ExampleInput) (request : FakeRequest) :
    Except String GenericAuthContext :=
  GenericAuthContext.authorize request ["read", "write"] self.bar

/-- Output schema: the declared shape of the handler's result.  The float
field is modelled as a rational. -/
structure ExampleOutput where
  fizz : ℚ
  buzz : String
deriving Repr, DecidableEq

/-- Typed decode of a parsed JSON document into `ExampleInput`: the document
must be an object, the required fields `foo` (a string) and `bar` (an
integer) must be present with those types, and unknown fields are ignored. -/
def decodeExampleInputJson (j : Json) : Except String ExampleInput :=
  match j with
  | .obj fields =>
    match (fields.find? (fun p => p.1 == "foo")).map Prod.snd with
    | some (Json.str f) =>
      match (fields.find? (fun p => p.1 == "bar")).map Prod.snd with
      | some (Json.int b) => .ok ⟨f, b⟩
      | some _ => .error "Expected int - at field bar"
      | none => .error "Object missing required field bar"
    | some _ => .error "Expected str - at field foo"
    | none => .error "Object missing required field foo"
  | _ => .error "Expected object"

/-- The decode step `json.decode(request.body, type=ExampleInput)`: parse the
body text and decode it against the declared input shape. -/
def decodeExampleInput (body : String) : Except String ExampleInput :=
  match parseJson body with
  | none => .error "JSON is malformed"
  | some j => decodeExampleInputJson j

/-- The encode step `json.encode` applied to an `ExampleOutput`. -/
def encodeExampleOutput (out : ExampleOutput) : Json :=
  .obj [("fizz", .float out.fizz), ("buzz", .str out.buzz)]

/-- The encoding `json.encode` would give an `ExampleInput`, used for the
round-trip property of an identity handler. -/
def encodeExampleInput (inp : ExampleInput) : Json :=
  .obj [("foo", .str inp.foo), ("bar", .int inp.bar)]

/-- The failure kinds of one pipeline invocation: a decode failure raised by
the JSON library, the generic `Exception("Unauthorized.")` raised by the
authorization strategy, and a failing context-type check
(`AssertionError`, the spec's `InternalContractError`). -/
inductive RpcError where
  | decodeError (msg : String)
  | authorizationError (msg : String)
  | internalContractError
deriving Repr

/-- Whether an error is an authorization rejection. -/
def RpcError.isAuthorizationError : RpcError → Bool
  | .authorizationError _ => true
  | _ => false

/-- Result of one pipeline invocation, instrumented with whether the
authorization step was attempted and whether the wrapped handler was
invoked (the invocation spy of the spec's testable properties). -/
structure RpcTrace where
  result : Except RpcError Json
  authAttempted : Bool
  handlerInvoked : Bool
deriving Repr

/-- The decorator's `inner` function: decode the body into the declared input
type, authorize (creating the auth context), check the context against the
context type the wrapped function declared (`assert isinstance`, modelled by
the predicate `ctxCheck` since the decorator is generic in that declared
type), invoke the function, and encode its result. -/
def rpc (ctxCheck : GenericAuthContext → Bool)
    (func : ExampleInput → GenericAuthContext → ExampleOutput)
    (request : FakeRequest) : RpcTrace :=
  match decodeExampleInput request.body with
  | .error e => ⟨.error (.decodeError e), false, false⟩
  | .ok validated_input =>
    match validated_input.authorize request with
    | .error e => ⟨.error (.authorizationError e), true, false⟩
    | .ok ctx =>
      if ctxCheck ctx then
        ⟨.ok (encodeExampleOutput (func validated_input ctx)), true, true⟩
      else
        ⟨.error .internalContractError, true, false⟩

/-- Python `str.capitalize()`: first character uppercased, the rest
lowercased. -/
def pyCapitalize (s : String) : String :=
  match s.toList with
  | [] => ""
  | c :: rest => String.mk (c.toUpper :: rest.map Char.toLower)

/-- The wrapped handler's body: `fizz = bar / 2.0` and
`buzz = foo.capitalize()`.  The `print` call is a side effect outside the
data flow and is dropped. -/
def myFunc (schema : ExampleInput) (_ctx : GenericAuthContext) : ExampleOutput :=
  ⟨(schema.bar : ℚ) / 2, pyCapitalize schema.foo⟩

/-- The handler declares its context parameter with type
`GenericAuthContext`; in the typed embedding every context the strategy
produces has exactly that type, so the `isinstance` check holds of all of
them. -/
def isGenericAuthContext : GenericAuthContext → Bool := fun _ => true

/-- The decorated handler: `myFunc` after the `rpc` decorator is applied,
the function the module-level script calls. -/
def myFuncRpc : FakeRequest → RpcTrace := rpc isGenericAuthContext myFunc

/-- The request constructed by the module-level script code. -/
def scenarioARequest : FakeRequest :=
  ⟨"https://example.com/alice", "\x7b \"foo\": \"hElLo\", \"bar\": 1234 \x7d"⟩

/-- Helper: every failure of the generic authorization strategy carries the
same generic message. -/
theorem authorize_error_eq (req : FakeRequest) (perms : List String) (bar : Int)
    (e : String) (h : GenericAuthContext.authorize req perms bar = .error e) :
    e = "Unauthorized." := by
  unfold GenericAuthContext.authorize at h
  cases hu : usersLookup (usernameOf req.url) with
  | none =>
    simp [hu] at h
    simp_all
  | some u =>
    simp [hu] at h
    split_ifs at h <;> simp_all

/-- Helper: a successfully produced context implies the data predicate held:
the extracted field was even. -/
theorem authorize_ok_even (req : FakeRequest) (perms : List String) (bar : Int)
    (ctx : GenericAuthContext)
    (h : GenericAuthContext.authorize req perms bar = .ok ctx) : bar % 2 = 0 := by
  unfold GenericAuthContext.authorize at h
  cases hu : usersLookup (usernameOf req.url) with
  | none => simp [hu] at h
  | some u =>
    simp [hu] at h
    split_ifs at h
    simp_all

/-- Helper: splitting a list that does not contain the separator yields the
single segment consisting of the whole list. -/
theorem splitChars_no_sep (sep : Char) (l : List Char) (h : sep ∉ l) :
    splitChars sep l = [l] := by
  induction l with
  | nil => rfl
  | cons c rest ih =>
    have hc : c ≠ sep := by
      intro e
      exact h (e ▸ List.mem_cons_self c rest)
    have hr : sep ∉ rest := fun m => h (List.mem_cons_of_mem _ m)
    simp [splitChars, ih hr, hc]

/-- C1: for the request with url "https://example.com/alice" and body
`\x7b "foo": "hElLo", "bar": 1234 \x7d`, the pipeline succeeds: the body
decodes to the input with `bar = 1234`, the handler maps that input to the
output with `fizz = 617` and `buzz = "Hello"`, and the pipeline's result is
the JSON encoding of that output. -/
theorem scenarioA_pipeline_ok :
    decodeExampleInput scenarioARequest.body = .ok ⟨"hElLo", 1234⟩ ∧
    (ExampleInput.mk "hElLo" 1234).bar = 1234 ∧
    myFunc ⟨"hElLo", 1234⟩ ⟨"alice"⟩ = ⟨617, "Hello"⟩ ∧
    myFuncRpc scenarioARequest =
      ⟨.ok (encodeExampleOutput ⟨617, "Hello"⟩), true, true⟩ := by
  have hm : myFunc ⟨"hElLo", 1234⟩ ⟨"alice"⟩ = ⟨617, "Hello"⟩ := by
    simp only [myFunc, ExampleOutput.mk.injEq]
    constructor
    · norm_num
    · rfl
  refine ⟨rfl, rfl, hm, ?_⟩
  calc myFuncRpc scenarioARequest
      = ⟨.ok (encodeExampleOutput (myFunc ⟨"hElLo", 1234⟩ ⟨"alice"⟩)), true, true⟩ := rfl
    _ = ⟨.ok (encodeExampleOutput ⟨617, "Hello"⟩), true, true⟩ := by rw [hm]

/-- C2 counterexample: the claim quantifies over every request whose resolved
identity is absent from the user table, but a request with identity `carol`
and a malformed body fails at the decode step with a decode error, not an
authorization error — decoding runs before authorization. -/
theorem unknown_identity_claim_counterexample :
    usernameOf "https://example.com/carol" = "carol" ∧
    usersLookup "carol" = none ∧
    myFuncRpc ⟨"https://example.com/carol", "oops"⟩ =
      ⟨.error (.decodeError "JSON is malformed"), false, false⟩ ∧
    (RpcError.decodeError "JSON is malformed").isAuthorizationError = false :=
  ⟨by decide, by decide, rfl, rfl⟩

/-- C2 (amended): for every request whose body is well formed (decodes into
the declared input type) and whose resolved identity is not a key of the user
table, the pipeline fails with the authorization error "Unauthorized." and
the handler is never invoked. -/
theorem unknown_identity_rejected (cc : GenericAuthContext → Bool)
    (func : ExampleInput → GenericAuthContext → ExampleOutput)
    (req : FakeRequest) (i : ExampleInput)
    (hdec : decodeExampleInput req.body = .ok i)
    (habs : usersLookup (usernameOf req.url) = none) :
    rpc cc func req = ⟨.error (.authorizationError "Unauthorized."), true, false⟩ := by
  have hauth : i.authorize req = .error "Unauthorized." := by
    simp [ExampleInput.authorize, GenericAuthContext.authorize, habs]
  simp [rpc, hdec, hauth]

/-- C2 witness: the amended claim applied to identity `carol` with the
well-formed Scenario A body. -/
theorem unknown_identity_rejected_witness :
    decodeExampleInput "\x7b \"foo\": \"hElLo\", \"bar\": 1234 \x7d" =
      .ok ⟨"hElLo", 1234⟩ ∧
    usersLookup (usernameOf "https://example.com/carol") = none ∧
    rpc isGenericAuthContext myFunc
        ⟨"https://example.com/carol", "\x7b \"foo\": \"hElLo\", \"bar\": 1234 \x7d"⟩ =
      ⟨.error (.authorizationError "Unauthorized."), true, false⟩ :=
  ⟨rfl, by decide,
    unknown_identity_rejected isGenericAuthContext myFunc
      ⟨"https://example.com/carol", "\x7b \"foo\": \"hElLo\", \"bar\": 1234 \x7d"⟩
      ⟨"hElLo", 1234⟩ rfl (by decide)⟩

/-- C3 counterexample: the claim quantifies over every request whose identity
is present but lacks a required permission, but identity `bob` (permissions
`["read"]`, missing `"write"`) with a malformed body fails at the decode step
with a decode error, not an authorization error. -/
theorem permission_claim_counterexample :
    usernameOf "https://example.com/bob" = "bob" ∧
    usersLookup "bob" = some ["read"] ∧
    (["read", "write"].all fun p => (["read"] : List String).contains p) = false ∧
    myFuncRpc ⟨"https://example.com/bob", "oops"⟩ =
      ⟨.error (.decodeError "JSON is malformed"), false, false⟩ ∧
    (RpcError.decodeError "JSON is malformed").isAuthorizationError = false :=
  ⟨by decide, by decide, by decide, rfl, rfl⟩

/-- C3 (amended): for every request whose body is well formed and whose
resolved identity is in the user table but holds a permission set that is not
a superset of the endpoint's required permissions, the pipeline fails with
the authorization error "Unauthorized." before the handler runs; the witness
instantiates this at identity `bob` with a well-formed body. -/
theorem insufficient_permissions_rejected (cc : GenericAuthContext → Bool)
    (func : ExampleInput → GenericAuthContext → ExampleOutput)
    (req : FakeRequest) (i : ExampleInput) (perms_u : List String)
    (hdec : decodeExampleInput req.body = .ok i)
    (hu : usersLookup (usernameOf req.url) = some perms_u)
    (hperm : (["read", "write"].all fun p => perms_u.contains p) = false) :
    rpc cc func req = ⟨.error (.authorizationError "Unauthorized."), true, false⟩ := by
  have hmem : ¬ ("read" ∈ perms_u ∧ "write" ∈ perms_u) := by
    simpa using hperm
  have hauth : i.authorize req = .error "Unauthorized." := by
    simp [ExampleInput.authorize, GenericAuthContext.authorize, hu, hmem]
  simp [rpc, hdec, hauth]

/-- C3 witness: identity `bob` (permissions `["read"]`) with the well-formed
Scenario A body is rejected with the authorization error before the handler
runs. -/
theorem insufficient_permissions_rejected_witness :
    decodeExampleInput "\x7b \"foo\": \"hElLo\", \"bar\": 1234 \x7d" =
      .ok ⟨"hElLo", 1234⟩ ∧
    usersLookup (usernameOf "https://example.com/bob") = some ["read"] ∧
    rpc isGenericAuthContext myFunc
        ⟨"https://example.com/bob", "\x7b \"foo\": \"hElLo\", \"bar\": 1234 \x7d"⟩ =
      ⟨.error (.authorizationError "Unauthorized."), true, false⟩ :=
  ⟨rfl, by decide,
    insufficient_permissions_rejected isGenericAuthContext myFunc
      ⟨"https://example.com/bob", "\x7b \"foo\": \"hElLo\", \"bar\": 1234 \x7d"⟩
      ⟨"hElLo", 1234⟩ ["read"] rfl (by decide) (by decide)⟩

/-- C4: for every request whose resolved identity is in the user table with a
permission set covering the required permissions, the authorization strategy
succeeds exactly when the extracted `bar` field is even, and any odd `bar`
fails with the authorization error "Unauthorized.". -/
theorem authorize_even_iff (req : FakeRequest) (has_permissions : List String)
    (bar : Int) (perms_u : List String)
    (hu : usersLookup (usernameOf req.url) = some perms_u)
    (hperm : (has_permissions.all fun p => perms_u.contains p) = true) :
    (GenericAuthContext.authorize req has_permissions bar =
        .ok ⟨usernameOf req.url⟩ ↔ bar % 2 = 0) ∧
    (bar % 2 ≠ 0 →
      GenericAuthContext.authorize req has_permissions bar =
        .error "Unauthorized.") := by
  have hmem : ∀ p ∈ has_permissions, p ∈ perms_u := by
    simpa using hperm
  by_cases hb : bar % 2 = 0
  · simp [GenericAuthContext.authorize, hu, hb]
    exact hmem
  · simp [GenericAuthContext.authorize, hu, hmem, hb]

/-- C4 witness: identity `alice` (permissions covering `["read", "write"]`)
with `bar = 1234` authorizes successfully, and with `bar = 1235` is rejected
with "Unauthorized.". -/
theorem authorize_even_iff_witness :
    usersLookup (usernameOf "https://example.com/alice") = some ["read", "write"] ∧
    (GenericAuthContext.authorize ⟨"https://example.com/alice", ""⟩
        ["read", "write"] 1234 =
      .ok ⟨usernameOf "https://example.com/alice"⟩ ↔ (1234 : Int) % 2 = 0) ∧
    ((1235 : Int) % 2 ≠ 0 →
      GenericAuthContext.authorize ⟨"https://example.com/alice", ""⟩
          ["read", "write"] 1235 = .error "Unauthorized.") :=
  ⟨by decide,
    (authorize_even_iff ⟨"https://example.com/alice", ""⟩ ["read", "write"] 1234
      ["read", "write"] (by decide) (by decide)).1,
    (authorize_even_iff ⟨"https://example.com/alice", ""⟩ ["read", "write"] 1235
      ["read", "write"] (by decide) (by decide)).2⟩

/-- C5: for every request whose body fails to decode into the declared input
shape, the pipeline fails with a decode error wrapping the decoder's message,
authorization is never attempted, and the handler is never invoked. -/
theorem decode_failure_aborts_pipeline (cc : GenericAuthContext → Bool)
    (func : ExampleInput → GenericAuthContext → ExampleOutput)
    (req : FakeRequest) (e : String)
    (h : decodeExampleInput req.body = .error e) :
    rpc cc func req = ⟨.error (.decodeError e), false, false⟩ ∧
    (rpc cc func req).authAttempted = false ∧
    (rpc cc func req).handlerInvoked = false := by
  simp [rpc, h]

/-- C5 witness: a body giving `bar` as a non-numeric string fails to decode,
and the pipeline aborts before authorization with that decode error. -/
theorem decode_failure_aborts_pipeline_witness :
    decodeExampleInput "\x7b \"foo\": \"x\", \"bar\": \"nope\" \x7d" =
      .error "Expected int - at field bar" ∧
    rpc isGenericAuthContext myFunc
        ⟨"https://example.com/alice", "\x7b \"foo\": \"x\", \"bar\": \"nope\" \x7d"⟩ =
      ⟨.error (.decodeError "Expected int - at field bar"), false, false⟩ ∧
    (rpc isGenericAuthContext myFunc
        ⟨"https://example.com/alice", "\x7b \"foo\": \"x\", \"bar\": \"nope\" \x7d"⟩).authAttempted = false ∧
    (rpc isGenericAuthContext myFunc
        ⟨"https://example.com/alice", "\x7b \"foo\": \"x\", \"bar\": \"nope\" \x7d"⟩).handlerInvoked = false :=
  ⟨rfl,
    decode_failure_aborts_pipeline isGenericAuthContext myFunc
      ⟨"https://example.com/alice", "\x7b \"foo\": \"x\", \"bar\": \"nope\" \x7d"⟩
      "Expected int - at field bar" rfl⟩

/-- C6: any two rejections by the authorization strategy — for any requests,
required permission lists, and extracted fields, hence for any mix of the
three failure reasons — carry observably identical errors, the single
generic message "Unauthorized.". -/
theorem auth_failures_indistinguishable
    (req1 req2 : FakeRequest) (p1 p2 : List String) (b1 b2 : Int)
    (e1 e2 : String)
    (h1 : GenericAuthContext.authorize req1 p1 b1 = .error e1)
    (h2 : GenericAuthContext.authorize req2 p2 b2 = .error e2) :
    e1 = e2 ∧ e1 = "Unauthorized." := by
  have g1 := authorize_error_eq req1 p1 b1 e1 h1
  have g2 := authorize_error_eq req2 p2 b2 e2 h2
  exact ⟨g1.trans g2.symm, g1⟩

/-- C6 witness: a rejection for an unknown identity (`carol`) and a rejection
for an odd data field (`alice`, `bar = 1`) carry the same error. -/
theorem auth_failures_indistinguishable_witness :
    GenericAuthContext.authorize ⟨"https://example.com/carol", ""⟩
        ["read", "write"] 0 = .error "Unauthorized." ∧
    GenericAuthContext.authorize ⟨"https://example.com/alice", ""⟩
        ["read", "write"] 1 = .error "Unauthorized." ∧
    ("Unauthorized." = "Unauthorized." ∧
      ("Unauthorized." : String) = "Unauthorized.") :=
  ⟨rfl, rfl,
    auth_failures_indistinguishable ⟨"https://example.com/carol", ""⟩
      ⟨"https://example.com/alice", ""⟩ ["read", "write"] ["read", "write"]
      0 1 "Unauthorized." "Unauthorized." rfl rfl⟩

/-- C7: if the context produced by the authorization step fails the check
against the context type the handler declared, the pipeline fails with the
internal contract error without invoking the handler, and that error is
distinguishable from an authorization error. -/
theorem ctx_mismatch_internal_error (cc : GenericAuthContext → Bool)
    (func : ExampleInput → GenericAuthContext → ExampleOutput)
    (req : FakeRequest) (i : ExampleInput) (ctx : GenericAuthContext)
    (hdec : decodeExampleInput req.body = .ok i)
    (hauth : i.authorize req = .ok ctx)
    (hcc : cc ctx = false) :
    rpc cc func req = ⟨.error .internalContractError, true, false⟩ ∧
    RpcError.internalContractError.isAuthorizationError = false := by
  refine ⟨?_, rfl⟩
  simp [rpc, hdec, hauth, hcc]

/-- C7 witness: wiring the pipeline with a declared context type the produced
`GenericAuthContext` does not satisfy makes the Scenario A request fail with
the internal contract error before the handler runs. -/
theorem ctx_mismatch_internal_error_witness :
    decodeExampleInput scenarioARequest.body = .ok ⟨"hElLo", 1234⟩ ∧
    ExampleInput.authorize ⟨"hElLo", 1234⟩ scenarioARequest = .ok ⟨"alice"⟩ ∧
    rpc (fun _ => false) myFunc scenarioARequest =
      ⟨.error .internalContractError, true, false⟩ ∧
    RpcError.internalContractError.isAuthorizationError = false :=
  ⟨rfl, rfl,
    ctx_mismatch_internal_error (fun _ => false) myFunc scenarioARequest
      ⟨"hElLo", 1234⟩ ⟨"alice"⟩ rfl rfl rfl⟩

/-- C8: for every well-formed body that decodes into the declared input type,
encoding the decoded value — the output of an identity handler — produces a
JSON object whose `foo` and `bar` fields carry exactly the decoded values,
and decoding that encoding yields the value back unchanged (lossless
round-trip of every declared field). -/
theorem decode_encode_roundtrip (body : String) (i : ExampleInput)
    (_h : decodeExampleInput body = .ok i) :
    encodeExampleInput i =
      .obj [("foo", .str i.foo), ("bar", .int i.bar)] ∧
    decodeExampleInputJson (encodeExampleInput i) = .ok i := by
  exact ⟨rfl, rfl⟩

/-- C8 witness: the round-trip applied to the Scenario A body. -/
theorem decode_encode_roundtrip_witness :
    decodeExampleInput "\x7b \"foo\": \"hElLo\", \"bar\": 1234 \x7d" =
      .ok ⟨"hElLo", 1234⟩ ∧
    encodeExampleInput ⟨"hElLo", 1234⟩ =
      .obj [("foo", .str "hElLo"), ("bar", .int 1234)] ∧
    decodeExampleInputJson (encodeExampleInput ⟨"hElLo", 1234⟩) =
      .ok ⟨"hElLo", 1234⟩ :=
  ⟨rfl,
    decode_encode_roundtrip "\x7b \"foo\": \"hElLo\", \"bar\": 1234 \x7d"
      ⟨"hElLo", 1234⟩ rfl⟩

/-- C9: whenever the pipeline wrapping `myFunc` actually invokes the handler,
the decoded input's `bar` field is even — the authorization step established
that precondition — and so the output field `fizz = bar / 2` is an exact
integer-valued number with no fractional part. -/
theorem handler_sees_even_bar (cc : GenericAuthContext → Bool)
    (req : FakeRequest)
    (h : (rpc cc myFunc req).handlerInvoked = true) :
    ∃ i : ExampleInput, decodeExampleInput req.body = .ok i ∧
      i.bar % 2 = 0 ∧
      ∀ ctx : GenericAuthContext, ∃ n : ℤ, (myFunc i ctx).fizz = (n : ℚ) := by
  cases hdec : decodeExampleInput req.body with
  | error e => simp [rpc, hdec] at h
  | ok i =>
    cases hauth : i.authorize req with
    | error m => simp [rpc, hdec, hauth] at h
    | ok ctx =>
      by_cases hcc : cc ctx = true
      · have heven : i.bar % 2 = 0 :=
          authorize_ok_even req ["read", "write"] i.bar ctx hauth
        obtain ⟨k, hk⟩ : (2 : ℤ) ∣ i.bar := Int.dvd_of_emod_eq_zero heven
        refine ⟨i, rfl, heven, fun ctx2 => ⟨k, ?_⟩⟩
        show ((i.bar : ℚ)) / 2 = (k : ℚ)
        rw [hk]
        push_cast
        ring
      · simp [rpc, hdec, hauth, hcc] at h

/-- C9 witness: the Scenario A request invokes the handler, its decoded `bar`
is even, and the resulting `fizz` is integer-valued. -/
theorem handler_sees_even_bar_witness :
    (rpc isGenericAuthContext myFunc scenarioARequest).handlerInvoked = true ∧
    ∃ i : ExampleInput, decodeExampleInput scenarioARequest.body = .ok i ∧
      i.bar % 2 = 0 ∧
      ∀ ctx : GenericAuthContext, ∃ n : ℤ, (myFunc i ctx).fizz = (n : ℚ) :=
  ⟨rfl, handler_sees_even_bar isGenericAuthContext scenarioARequest rfl⟩

/-- C10: for every url that contains no slash, the identity resolution
`url.split("/")[-1]` yields the whole url as the username; in particular the
request with url "alice" resolves identity `alice` and authorizes
successfully. -/
theorem slashless_url_is_username (url : String) (h : '/' ∉ url.toList) :
    usernameOf url = url ∧
    GenericAuthContext.authorize ⟨"alice", ""⟩ ["read", "write"] 1234 =
      .ok ⟨"alice"⟩ := by
  refine ⟨?_, rfl⟩
  unfold usernameOf pySplit
  rw [splitChars_no_sep '/' url.toList h]
  rfl

/-- C10 witness: the slashless url "alice" is its own username. -/
theorem slashless_url_is_username_witness :
    ('/' ∉ "alice".toList) ∧
    usernameOf "alice" = "alice" ∧
    GenericAuthContext.authorize ⟨"alice", ""⟩ ["read", "write"] 1234 =
      .ok ⟨"alice"⟩ :=
  ⟨by decide, slashless_url_is_username "alice" (by decide)⟩
